import Mathlib

/-!
Verification of the AI-Powered Mock Interview Platform against its
natural-language specification.

The Python sources (`config.py`, `interviewer.py`, `jd_parser.py`,
`report_generator.py`, `app.py`) are shallowly embedded below: pure
functions become Lean functions over `ℚ` (Python numbers), `String`,
`List` and `Option`; the Streamlit session becomes an explicit state
machine.  Two genuinely ambient pieces of the Python runtime are taken
as parameters rather than re-implemented: the process string-hash
(`hash`, whose seed is per-process) and the iteration order of
`list(set(...))`; every theorem below holds for all instantiations of
those parameters.
-/

namespace MockInterview

/-! ## config.py -/

/-- `MIN_QUESTIONS` from config.py. -/
def MIN_QUESTIONS : ℕ := 5

/-- `MAX_QUESTIONS` from config.py. -/
def MAX_QUESTIONS : ℕ := 15

/-- `QUESTION_TIME_LIMIT_SECONDS` from config.py (3 minutes). -/
def QUESTION_TIME_LIMIT_SECONDS : ℚ := 180

/-- `EARLY_TERMINATION_THRESHOLD` from config.py. -/
def EARLY_TERMINATION_THRESHOLD : ℚ := 35

/-- `MIN_QUESTIONS_BEFORE_TERMINATION` from config.py. -/
def MIN_QUESTIONS_BEFORE_TERMINATION : ℕ := 3

/-- `CONSECUTIVE_LOW_SCORES` from config.py. -/
def CONSECUTIVE_LOW_SCORES : ℕ := 2

/-- `DIFFICULTY_LEVELS` from config.py. -/
def DIFFICULTY_LEVELS : List String := ["easy", "medium", "hard"]

/-- `SCORING_WEIGHTS["accuracy"]` from config.py. -/
def SCORING_WEIGHTS_accuracy : ℚ := 30 / 100

/-- `SCORING_WEIGHTS["clarity"]` from config.py. -/
def SCORING_WEIGHTS_clarity : ℚ := 20 / 100

/-- `SCORING_WEIGHTS["depth"]` from config.py. -/
def SCORING_WEIGHTS_depth : ℚ := 25 / 100

/-- `SCORING_WEIGHTS["relevance"]` from config.py. -/
def SCORING_WEIGHTS_relevance : ℚ := 15 / 100

/-- `SCORING_WEIGHTS["time_efficiency"]` from config.py. -/
def SCORING_WEIGHTS_time_efficiency : ℚ := 10 / 100

/-! ## Data model (interviewer.py dataclasses) -/

/-- The `Question` dataclass of interviewer.py. -/
structure Question where
  text : String
  difficulty : String
  category : String
  skill_area : String := ""
  deriving Repr, DecidableEq

/-- The `AnswerEvaluation` dataclass of interviewer.py. -/
structure AnswerEvaluation where
  accuracy : ℚ
  clarity : ℚ
  depth : ℚ
  relevance : ℚ
  time_efficiency : ℚ
  overall_score : ℚ
  feedback : String
  skill_area : String := ""
  deriving Repr, DecidableEq

/-! ## Numeric helpers -/

/-- Python `round(x, 1)`: rounding to one decimal place.  CPython breaks
exact ties to even on the binary float; no claim below depends on the tie
direction, so ties round half-up here. -/
def pyRound1 (x : ℚ) : ℚ := ((round (10 * x) : ℤ) : ℚ) / 10

/-- Helper for `pyWords`: accumulate the current word (reversed) while
scanning the character list. -/
def wordsAux (acc : List Char) : List Char → List (List Char)
  | [] => if acc = [] then [] else [acc.reverse]
  | c :: rest =>
    if c.isWhitespace then
      if acc = [] then wordsAux [] rest else acc.reverse :: wordsAux [] rest
    else wordsAux (c :: acc) rest

/-- Python `str.split()` with no argument: split on whitespace runs,
dropping empty pieces. -/
def pyWords (s : String) : List String :=
  (wordsAux [] s.data).map (fun cs => cs.asString)

/-- Rounding to one decimal maps `[0, 100]` into `[0, 100]`. -/
theorem pyRound1_bounds {x : ℚ} (h0 : 0 ≤ x) (h1 : x ≤ 100) :
    0 ≤ pyRound1 x ∧ pyRound1 x ≤ 100 := by
  unfold pyRound1
  rw [round_eq]
  constructor
  · have hfl : (0 : ℤ) ≤ ⌊10 * x + 1 / 2⌋ := by
      apply Int.floor_nonneg.mpr
      linarith
    have : (0 : ℚ) ≤ (⌊10 * x + 1 / 2⌋ : ℚ) := by exact_mod_cast hfl
    linarith
  · have hlt : 10 * x + 1 / 2 < ((1001 : ℤ) : ℚ) := by push_cast; linarith
    have hfl : ⌊10 * x + 1 / 2⌋ < (1001 : ℤ) := Int.floor_lt.mpr hlt
    have hle : ⌊10 * x + 1 / 2⌋ ≤ (1000 : ℤ) := by omega
    have : ((⌊10 * x + 1 / 2⌋ : ℤ) : ℚ) ≤ 1000 := by exact_mod_cast hle
    linarith

/-! ## interviewer.py: answer evaluation -/

/-- The time-efficiency sub-score computed at the top of
`evaluate_answer` (interviewer.py lines 237–245), shared by the AI and
fallback paths: a slight penalty while within the limit (floored at 50),
a steep penalty for overtime (floored at 0). -/
def timeScore (time_taken_seconds : ℚ) : ℚ :=
  if time_taken_seconds ≤ QUESTION_TIME_LIMIT_SECONDS then
    max 50 (min 100 (100 - (time_taken_seconds / QUESTION_TIME_LIMIT_SECONDS) * 20))
  else
    max 0 (50 - ((time_taken_seconds - QUESTION_TIME_LIMIT_SECONDS) / QUESTION_TIME_LIMIT_SECONDS) * 50)

/-- The heuristic fallback path of `evaluate_answer` (interviewer.py
lines 256–281): word-count based sub-scores and the fixed weighted
overall score. -/
def evaluate_answer_fallback (question : Question) (answer : String)
    (time_taken_seconds : ℚ) : AnswerEvaluation :=
  let time_score := timeScore time_taken_seconds
  let word_count : ℕ := (pyWords answer).length
  let depth_score : ℚ :=
    if 10 < word_count then min 100 (30 + (word_count : ℚ) * 2) else 40
  let clarity_score : ℚ :=
    if 20 < word_count ∧ word_count < 200 then min 100 (40 + (word_count : ℚ)) else 60
  let accuracy_score : ℚ := 65
  let relevance_score : ℚ := 70
  let overall :=
    accuracy_score * SCORING_WEIGHTS_accuracy
      + clarity_score * SCORING_WEIGHTS_clarity
      + depth_score * SCORING_WEIGHTS_depth
      + relevance_score * SCORING_WEIGHTS_relevance
      + time_score * SCORING_WEIGHTS_time_efficiency
  { accuracy := accuracy_score
    clarity := clarity_score
    depth := depth_score
    relevance := relevance_score
    time_efficiency := time_score
    overall_score := pyRound1 overall
    feedback := "Consider providing more specific examples and structure your answers with clear points."
    skill_area := question.skill_area }

/-- `_evaluate_with_ai` (interviewer.py lines 284–330) after the model
reply has been parsed: the four AI sub-scores and the feedback line are
its inputs, `time_score` is the value computed in `evaluate_answer`. -/
def evaluate_with_ai (question : Question) (acc clar depth rel : ℚ)
    (feedback : String) (time_score : ℚ) : AnswerEvaluation :=
  let overall :=
    acc * SCORING_WEIGHTS_accuracy
      + clar * SCORING_WEIGHTS_clarity
      + depth * SCORING_WEIGHTS_depth
      + rel * SCORING_WEIGHTS_relevance
      + time_score * SCORING_WEIGHTS_time_efficiency
  { accuracy := acc
    clarity := clar
    depth := depth
    relevance := rel
    time_efficiency := time_score
    overall_score := pyRound1 overall
    feedback := feedback
    skill_area := question.skill_area }

/-- An evaluation record is produced by `evaluate_answer` when it comes
from the AI path (`_evaluate_with_ai`, with the time score computed from
some elapsed time) or from the heuristic fallback path. -/
def evalProduced (ev : AnswerEvaluation) : Prop :=
  (∃ q acc clar depth rel fb t, 0 ≤ t ∧
      ev = evaluate_with_ai q acc clar depth rel fb (timeScore t))
  ∨ (∃ q answer t, 0 ≤ t ∧ ev = evaluate_answer_fallback q answer t)

/-- All five sub-scores of an evaluation lie in `[0, 100]`. -/
def subScoresInRange (ev : AnswerEvaluation) : Prop :=
  (0 ≤ ev.accuracy ∧ ev.accuracy ≤ 100)
  ∧ (0 ≤ ev.clarity ∧ ev.clarity ≤ 100)
  ∧ (0 ≤ ev.depth ∧ ev.depth ≤ 100)
  ∧ (0 ≤ ev.relevance ∧ ev.relevance ≤ 100)
  ∧ (0 ≤ ev.time_efficiency ∧ ev.time_efficiency ≤ 100)

/-- The weighted-sum formula of the specification:
`0.30*accuracy + 0.20*clarity + 0.25*depth + 0.15*relevance +
0.10*timeEfficiency`. -/
def specWeightedSum (ev : AnswerEvaluation) : ℚ :=
  (30 / 100) * ev.accuracy + (20 / 100) * ev.clarity + (25 / 100) * ev.depth
    + (15 / 100) * ev.relevance + (10 / 100) * ev.time_efficiency

/-- C8: for every `time_taken_seconds ≥ 0`, the time-efficiency
sub-score of `evaluate_answer` equals `clamp(100 - (t/180)*20, 50, 100)`
when `t ≤ 180`, equals `max 0 (50 - ((t-180)/180)*50)` when `t > 180`,
and always lies in `[0, 100]`; the fallback path stores exactly this
value in its `time_efficiency` field. -/
theorem timeScore_spec (t : ℚ) (ht : 0 ≤ t) :
    (t ≤ QUESTION_TIME_LIMIT_SECONDS →
        timeScore t = max 50 (min 100 (100 - (t / QUESTION_TIME_LIMIT_SECONDS) * 20)))
    ∧ (QUESTION_TIME_LIMIT_SECONDS < t →
        timeScore t = max 0 (50 - ((t - QUESTION_TIME_LIMIT_SECONDS) / QUESTION_TIME_LIMIT_SECONDS) * 50))
    ∧ 0 ≤ timeScore t ∧ timeScore t ≤ 100
    ∧ ∀ q answer, (evaluate_answer_fallback q answer t).time_efficiency = timeScore t := by
  refine ⟨fun hle => by rw [timeScore, if_pos hle],
          fun hgt => by rw [timeScore, if_neg (not_le.mpr hgt)], ?_, ?_, fun q answer => rfl⟩
  · unfold timeScore
    split_ifs with hle
    · have : (50 : ℚ) ≤ max 50 (min 100 (100 - t / QUESTION_TIME_LIMIT_SECONDS * 20)) :=
        le_max_left _ _
      linarith
    · exact le_max_left _ _
  · unfold timeScore QUESTION_TIME_LIMIT_SECONDS
    split_ifs with hle
    · apply max_le
      · norm_num
      · exact le_trans (min_le_left _ _) (by norm_num)
    · apply max_le
      · norm_num
      · have hpos : 0 ≤ (t - 180) / 180 * 50 := by
          apply mul_nonneg
          · apply div_nonneg <;> [linarith [not_le.mp hle]; norm_num]
          · norm_num
        linarith

/-- C8 witness at `t = 90`. -/
theorem timeScore_spec_witness :
    ((90 : ℚ) ≤ QUESTION_TIME_LIMIT_SECONDS →
        timeScore 90 = max 50 (min 100 (100 - ((90 : ℚ) / QUESTION_TIME_LIMIT_SECONDS) * 20)))
    ∧ (QUESTION_TIME_LIMIT_SECONDS < (90 : ℚ) →
        timeScore 90 = max 0 (50 - (((90 : ℚ) - QUESTION_TIME_LIMIT_SECONDS) / QUESTION_TIME_LIMIT_SECONDS) * 50))
    ∧ 0 ≤ timeScore 90 ∧ timeScore 90 ≤ 100
    ∧ ∀ q answer, (evaluate_answer_fallback q answer 90).time_efficiency = timeScore 90 :=
  timeScore_spec 90 (by norm_num)

/-- A sample question used as a concrete instantiation point. -/
def sampleQuestion : Question :=
  { text := "What is your experience with Python? How have you used it in projects?"
    difficulty := "easy"
    category := "technical"
    skill_area := "Python" }

/-- C1: every evaluation produced by `evaluate_answer` (AI or fallback
path) whose five sub-scores lie in `[0,100]` has
`overall_score = round(0.30*accuracy + 0.20*clarity + 0.25*depth +
0.15*relevance + 0.10*timeEfficiency, 1)`, and that value lies in
`[0, 100]`. -/
theorem overall_score_weighted_sum (ev : AnswerEvaluation)
    (hprod : evalProduced ev) (hrange : subScoresInRange ev) :
    ev.overall_score = pyRound1 (specWeightedSum ev)
      ∧ 0 ≤ ev.overall_score ∧ ev.overall_score ≤ 100 := by
  obtain ⟨ha1, ha2⟩ := hrange.1
  obtain ⟨hc1, hc2⟩ := hrange.2.1
  obtain ⟨hd1, hd2⟩ := hrange.2.2.1
  obtain ⟨hr1, hr2⟩ := hrange.2.2.2.1
  obtain ⟨ht1, ht2⟩ := hrange.2.2.2.2
  have heq : ev.overall_score = pyRound1 (specWeightedSum ev) := by
    rcases hprod with ⟨q, acc, clar, depth, rel, fb, t, _, hev⟩ | ⟨q, answer, t, _, hev⟩
    · subst hev
      simp only [evaluate_with_ai, specWeightedSum, SCORING_WEIGHTS_accuracy,
        SCORING_WEIGHTS_clarity, SCORING_WEIGHTS_depth, SCORING_WEIGHTS_relevance,
        SCORING_WEIGHTS_time_efficiency]
      ring_nf
    · subst hev
      simp only [evaluate_answer_fallback, specWeightedSum, SCORING_WEIGHTS_accuracy,
        SCORING_WEIGHTS_clarity, SCORING_WEIGHTS_depth, SCORING_WEIGHTS_relevance,
        SCORING_WEIGHTS_time_efficiency]
      ring_nf
  have hsum0 : 0 ≤ specWeightedSum ev := by
    unfold specWeightedSum; linarith
  have hsum100 : specWeightedSum ev ≤ 100 := by
    unfold specWeightedSum; linarith
  have hb := pyRound1_bounds hsum0 hsum100
  exact ⟨heq, heq ▸ hb.1, heq ▸ hb.2⟩

/-- C1 witness: the fallback evaluation of a short answer taken in 10
seconds. -/
theorem overall_score_weighted_sum_witness :
    (evaluate_answer_fallback sampleQuestion "I used it daily" 10).overall_score
        = pyRound1 (specWeightedSum (evaluate_answer_fallback sampleQuestion "I used it daily" 10))
      ∧ 0 ≤ (evaluate_answer_fallback sampleQuestion "I used it daily" 10).overall_score
      ∧ (evaluate_answer_fallback sampleQuestion "I used it daily" 10).overall_score ≤ 100 :=
  overall_score_weighted_sum _
    (Or.inr ⟨sampleQuestion, "I used it daily", 10, by norm_num, rfl⟩)
    (by
      have hw : (pyWords "I used it daily").length = 4 := rfl
      simp only [subScoresInRange, evaluate_answer_fallback, timeScore,
        QUESTION_TIME_LIMIT_SECONDS, hw]
      norm_num [min_def, max_def])

/-! ## interviewer.py: difficulty adaptation and early termination -/

/-- `get_next_difficulty` (interviewer.py lines 333–346): step up one
level on a score of at least 80, step down one level below 50, clamped
to the 3-level scale.  The `recent_scores` argument is unused in the
source as well. -/
def get_next_difficulty (current_difficulty : String)
    (evaluation : AnswerEvaluation) (recent_scores : List ℚ) : String :=
  let score := evaluation.overall_score
  let idx := DIFFICULTY_LEVELS.indexOf current_difficulty
  if 80 ≤ score ∧ idx < 2 then DIFFICULTY_LEVELS.getD (idx + 1) current_difficulty
  else if score < 50 ∧ 0 < idx then DIFFICULTY_LEVELS.getD (idx - 1) current_difficulty
  else current_difficulty

/-- `should_terminate_early` (interviewer.py lines 349–365): never
before 3 questions; afterwards terminate when the running average is
below the threshold (35) or when the last 2 scores are both below 40. -/
def should_terminate_early (question_count : ℕ) (scores : List ℚ)
    (threshold : ℚ := EARLY_TERMINATION_THRESHOLD) : Bool :=
  if question_count < MIN_QUESTIONS_BEFORE_TERMINATION then false
  else
    let avg : ℚ := if scores.isEmpty then 0 else scores.sum / scores.length
    if avg < threshold then true
    else if CONSECUTIVE_LOW_SCORES ≤ scores.length
        ∧ ∀ s ∈ scores.drop (scores.length - CONSECUTIVE_LOW_SCORES), s < 40 then true
    else false

/-- C2: `get_next_difficulty` steps up exactly one level iff the score
is at least 80 and the current level is not `hard`, steps down exactly
one level iff the score is below 50 and the current level is not `easy`,
is otherwise the identity, never moves more than one step, and is
idempotent at both boundaries. -/
theorem next_difficulty_spec (current : String) (ev : AnswerEvaluation)
    (rs : List ℚ) (hcur : current ∈ DIFFICULTY_LEVELS) :
    get_next_difficulty current ev rs ∈ DIFFICULTY_LEVELS
    ∧ (DIFFICULTY_LEVELS.indexOf (get_next_difficulty current ev rs)
          = DIFFICULTY_LEVELS.indexOf current + 1
        ↔ 80 ≤ ev.overall_score ∧ current ≠ "hard")
    ∧ (DIFFICULTY_LEVELS.indexOf (get_next_difficulty current ev rs) + 1
          = DIFFICULTY_LEVELS.indexOf current
        ↔ ev.overall_score < 50 ∧ current ≠ "easy")
    ∧ (¬(80 ≤ ev.overall_score ∧ current ≠ "hard") →
        ¬(ev.overall_score < 50 ∧ current ≠ "easy") →
        get_next_difficulty current ev rs = current)
    ∧ DIFFICULTY_LEVELS.indexOf (get_next_difficulty current ev rs)
        ≤ DIFFICULTY_LEVELS.indexOf current + 1
    ∧ DIFFICULTY_LEVELS.indexOf current
        ≤ DIFFICULTY_LEVELS.indexOf (get_next_difficulty current ev rs) + 1
    ∧ (80 ≤ ev.overall_score ∧ current = "hard" →
        get_next_difficulty current ev rs = "hard")
    ∧ (ev.overall_score < 50 ∧ current = "easy" →
        get_next_difficulty current ev rs = "easy") := by
  have hmem : current = "easy" ∨ current = "medium" ∨ current = "hard" := by
    simpa [DIFFICULTY_LEVELS] using hcur
  rcases hmem with h | h | h <;> subst h <;>
    by_cases h80 : (80 : ℚ) ≤ ev.overall_score <;>
    by_cases h50 : ev.overall_score < 50
  all_goals (first | (exfalso; linarith) | skip)
  -- easy, high score
  · have he : get_next_difficulty "easy" ev rs = "medium" := by
      simp only [get_next_difficulty]
      rw [if_pos ⟨h80, by decide⟩]
      rfl
    refine ⟨by rw [he]; decide, ?_, ?_, ?_, by rw [he]; decide, by rw [he]; decide, ?_, ?_⟩
    · exact iff_of_true (by rw [he]; decide) ⟨h80, by decide⟩
    · exact iff_of_false (by rw [he]; decide) (fun hc => absurd hc.2 (by decide))
    · exact fun hn _ => absurd ⟨h80, by decide⟩ hn
    · exact fun hc => absurd hc.2 (by decide)
    · exact fun hc => absurd hc.1 (by linarith)
  -- easy, low score
  · have he : get_next_difficulty "easy" ev rs = "easy" := by
      simp only [get_next_difficulty]
      rw [if_neg (fun hc => h80 hc.1), if_neg (fun hc => absurd hc.2 (by decide))]
    refine ⟨by rw [he]; decide, ?_, ?_, ?_, by rw [he]; decide, by rw [he]; decide, ?_, ?_⟩
    · exact iff_of_false (by rw [he]; decide) (fun hc => h80 hc.1)
    · exact iff_of_false (by rw [he]; decide) (fun hc => absurd hc.2 (by decide))
    · exact fun _ _ => he
    · exact fun hc => absurd hc.2 (by decide)
    · exact fun _ => he
  -- easy, middling score
  · have he : get_next_difficulty "easy" ev rs = "easy" := by
      simp only [get_next_difficulty]
      rw [if_neg (fun hc => h80 hc.1), if_neg (fun hc => h50 hc.1)]
    refine ⟨by rw [he]; decide, ?_, ?_, ?_, by rw [he]; decide, by rw [he]; decide, ?_, ?_⟩
    · exact iff_of_false (by rw [he]; decide) (fun hc => h80 hc.1)
    · exact iff_of_false (by rw [he]; decide) (fun hc => h50 hc.1)
    · exact fun _ _ => he
    · exact fun hc => absurd hc.2 (by decide)
    · exact fun hc => absurd hc.1 h50
  -- medium, high score
  · have he : get_next_difficulty "medium" ev rs = "hard" := by
      simp only [get_next_difficulty]
      rw [if_pos ⟨h80, by decide⟩]
      rfl
    refine ⟨by rw [he]; decide, ?_, ?_, ?_, by rw [he]; decide, by rw [he]; decide, ?_, ?_⟩
    · exact iff_of_true (by rw [he]; decide) ⟨h80, by decide⟩
    · exact iff_of_false (by rw [he]; decide) (fun hc => absurd hc.1 (by linarith))
    · exact fun hn _ => absurd ⟨h80, by decide⟩ hn
    · exact fun hc => absurd hc.2 (by decide)
    · exact fun hc => absurd hc.1 (by linarith)
  -- medium, low score
  · have he : get_next_difficulty "medium" ev rs = "easy" := by
      simp only [get_next_difficulty]
      rw [if_neg (fun hc => h80 hc.1), if_pos ⟨h50, by decide⟩]
      rfl
    refine ⟨by rw [he]; decide, ?_, ?_, ?_, by rw [he]; decide, by rw [he]; decide, ?_, ?_⟩
    · exact iff_of_false (by rw [he]; decide) (fun hc => h80 hc.1)
    · exact iff_of_true (by rw [he]; decide) ⟨h50, by decide⟩
    · exact fun _ hn => absurd ⟨h50, by decide⟩ hn
    · exact fun hc => absurd hc.2 (by decide)
    · exact fun hc => absurd hc.2 (by decide)
  -- medium, middling score
  · have he : get_next_difficulty "medium" ev rs = "medium" := by
      simp only [get_next_difficulty]
      rw [if_neg (fun hc => h80 hc.1), if_neg (fun hc => h50 hc.1)]
    refine ⟨by rw [he]; decide, ?_, ?_, ?_, by rw [he]; decide, by rw [he]; decide, ?_, ?_⟩
    · exact iff_of_false (by rw [he]; decide) (fun hc => h80 hc.1)
    · exact iff_of_false (by rw [he]; decide) (fun hc => h50 hc.1)
    · exact fun _ _ => he
    · exact fun hc => absurd hc.2 (by decide)
    · exact fun hc => absurd hc.1 h50
  -- hard, high score
  · have he : get_next_difficulty "hard" ev rs = "hard" := by
      simp only [get_next_difficulty]
      rw [if_neg (fun hc => absurd hc.2 (by decide)), if_neg (fun hc => absurd hc.1 (by linarith))]
    refine ⟨by rw [he]; decide, ?_, ?_, ?_, by rw [he]; decide, by rw [he]; decide, ?_, ?_⟩
    · exact iff_of_false (by rw [he]; decide) (fun hc => hc.2 rfl)
    · exact iff_of_false (by rw [he]; decide) (fun hc => absurd hc.1 (by linarith))
    · exact fun _ _ => he
    · exact fun _ => he
    · exact fun hc => absurd hc.1 (by linarith)
  -- hard, low score
  · have he : get_next_difficulty "hard" ev rs = "medium" := by
      simp only [get_next_difficulty]
      rw [if_neg (fun hc => h80 hc.1), if_pos ⟨h50, by decide⟩]
      rfl
    refine ⟨by rw [he]; decide, ?_, ?_, ?_, by rw [he]; decide, by rw [he]; decide, ?_, ?_⟩
    · exact iff_of_false (by rw [he]; decide) (fun hc => h80 hc.1)
    · exact iff_of_true (by rw [he]; decide) ⟨h50, by decide⟩
    · exact fun _ hn => absurd ⟨h50, by decide⟩ hn
    · exact fun hc => absurd hc.1 h80
    · exact fun hc => absurd hc.2 (by decide)
  -- hard, middling score
  · have he : get_next_difficulty "hard" ev rs = "hard" := by
      simp only [get_next_difficulty]
      rw [if_neg (fun hc => h80 hc.1), if_neg (fun hc => h50 hc.1)]
    refine ⟨by rw [he]; decide, ?_, ?_, ?_, by rw [he]; decide, by rw [he]; decide, ?_, ?_⟩
    · exact iff_of_false (by rw [he]; decide) (fun hc => hc.2 rfl)
    · exact iff_of_false (by rw [he]; decide) (fun hc => h50 hc.1)
    · exact fun _ _ => he
    · exact fun _ => he
    · exact fun hc => absurd hc.1 h50

/-- A sample evaluation with all scores 90, used as a concrete
instantiation point. -/
def sampleEvaluation : AnswerEvaluation :=
  { accuracy := 90, clarity := 90, depth := 90, relevance := 90
    time_efficiency := 90, overall_score := 90
    feedback := "Good response.", skill_area := "Python" }

/-- C2 witness at `current = "medium"` and a 90-point evaluation. -/
theorem next_difficulty_spec_witness :
    get_next_difficulty "medium" sampleEvaluation [] ∈ DIFFICULTY_LEVELS
    ∧ (DIFFICULTY_LEVELS.indexOf (get_next_difficulty "medium" sampleEvaluation [])
          = DIFFICULTY_LEVELS.indexOf "medium" + 1
        ↔ 80 ≤ sampleEvaluation.overall_score ∧ "medium" ≠ "hard")
    ∧ (DIFFICULTY_LEVELS.indexOf (get_next_difficulty "medium" sampleEvaluation []) + 1
          = DIFFICULTY_LEVELS.indexOf "medium"
        ↔ sampleEvaluation.overall_score < 50 ∧ "medium" ≠ "easy")
    ∧ (¬(80 ≤ sampleEvaluation.overall_score ∧ "medium" ≠ "hard") →
        ¬(sampleEvaluation.overall_score < 50 ∧ "medium" ≠ "easy") →
        get_next_difficulty "medium" sampleEvaluation [] = "medium")
    ∧ DIFFICULTY_LEVELS.indexOf (get_next_difficulty "medium" sampleEvaluation [])
        ≤ DIFFICULTY_LEVELS.indexOf "medium" + 1
    ∧ DIFFICULTY_LEVELS.indexOf "medium"
        ≤ DIFFICULTY_LEVELS.indexOf (get_next_difficulty "medium" sampleEvaluation []) + 1
    ∧ (80 ≤ sampleEvaluation.overall_score ∧ "medium" = "hard" →
        get_next_difficulty "medium" sampleEvaluation [] = "hard")
    ∧ (sampleEvaluation.overall_score < 50 ∧ "medium" = "easy" →
        get_next_difficulty "medium" sampleEvaluation [] = "easy") :=
  next_difficulty_spec "medium" sampleEvaluation [] (by decide)

/-- C3: `should_terminate_early` is `false` below 3 questions regardless
of the scores; from 3 questions on (with one score per question) it is
`true` exactly when the mean score is below 35 or the last two scores
are both below 40. -/
theorem should_terminate_early_spec (question_count : ℕ) (scores : List ℚ) :
    (question_count < 3 → should_terminate_early question_count scores = false)
    ∧ (scores.length = question_count → 3 ≤ question_count →
        (should_terminate_early question_count scores = true ↔
          scores.sum / scores.length < 35
          ∨ ∀ s ∈ scores.drop (scores.length - 2), s < 40)) := by
  constructor
  · intro hlt
    unfold should_terminate_early MIN_QUESTIONS_BEFORE_TERMINATION
    rw [if_pos hlt]
  · intro hlen h3
    have hne : ¬ scores.isEmpty := by
      rcases scores with _ | ⟨a, tl⟩
      · simp at hlen; omega
      · simp
    unfold should_terminate_early MIN_QUESTIONS_BEFORE_TERMINATION
      EARLY_TERMINATION_THRESHOLD CONSECUTIVE_LOW_SCORES
    rw [if_neg (by omega)]
    simp only [hne, Bool.false_eq_true, if_false]
    by_cases havg : scores.sum / (scores.length : ℚ) < 35
    · rw [if_pos havg]
      exact iff_of_true rfl (Or.inl havg)
    · rw [if_neg havg]
      by_cases hall : ∀ s ∈ scores.drop (scores.length - 2), s < 40
      · rw [if_pos ⟨by omega, hall⟩]
        exact iff_of_true rfl (Or.inr hall)
      · rw [if_neg (fun hc => hall hc.2)]
        constructor
        · intro h; cases h
        · intro h
          rcases h with h | h
          · exact absurd h havg
          · exact absurd h hall

/-- C3 witness: three questions with a failing average. -/
theorem should_terminate_early_spec_witness :
    should_terminate_early 3 [10, 20, 30] = true ↔
      ([10, 20, 30] : List ℚ).sum / (([10, 20, 30] : List ℚ).length : ℚ) < 35
      ∨ ∀ s ∈ ([10, 20, 30] : List ℚ).drop (([10, 20, 30] : List ℚ).length - 2), s < 40 :=
  (should_terminate_early_spec 3 [10, 20, 30]).2 rfl (by norm_num)

/-! ## report_generator.py -/

/-- `compute_readiness_score` (report_generator.py lines 19–28): 0 for
an empty interview, otherwise the mean overall score, scaled by 0.9 on
early termination, clamped to `[0, 100]` and rounded to 1 decimal. -/
def compute_readiness_score (evaluations : List AnswerEvaluation)
    (early_terminated : Bool) : ℚ :=
  if evaluations.isEmpty then 0
  else
    let scores := evaluations.map (fun e => e.overall_score)
    let avg := scores.sum / (scores.length : ℚ)
    let avg2 := if early_terminated then avg * (9 / 10) else avg
    pyRound1 (min 100 (max 0 avg2))

/-- C4: `compute_readiness_score` is 0 on an empty evaluation list and
otherwise equals
`round(clamp(mean(overallScores) * (0.9 if earlyTerminated else 1.0), 0, 100), 1)`. -/
theorem compute_readiness_score_spec (evaluations : List AnswerEvaluation)
    (early_terminated : Bool) :
    (evaluations = [] → compute_readiness_score evaluations early_terminated = 0)
    ∧ (evaluations ≠ [] →
        compute_readiness_score evaluations early_terminated
          = pyRound1 (min 100 (max 0
              ((evaluations.map (fun e => e.overall_score)).sum / (evaluations.length : ℚ)
                * (if early_terminated then 9 / 10 else 1))))) := by
  constructor
  · intro h
    subst h
    rfl
  · intro h
    have hne : ¬ (evaluations.isEmpty) := by
      rcases evaluations with _ | ⟨a, tl⟩
      · exact absurd rfl h
      · simp
    unfold compute_readiness_score
    simp only [hne, Bool.false_eq_true, if_false, List.length_map]
    cases early_terminated
    · simp [mul_one]
    · simp

/-- C4 witness on a one-evaluation interview without early
termination. -/
theorem compute_readiness_score_spec_witness :
    compute_readiness_score [sampleEvaluation] false
      = pyRound1 (min 100 (max 0
          ((([sampleEvaluation] : List AnswerEvaluation).map
              (fun e => e.overall_score)).sum
            / ((([sampleEvaluation] : List AnswerEvaluation).length : ℚ))
            * (if false then 9 / 10 else 1)))) :=
  (compute_readiness_score_spec [sampleEvaluation] false).2 (by simp)

/-- One entry of the `question_results` list built by `generate_report`
(report_generator.py lines 88–97). -/
structure QuestionResultEntry where
  question : String
  difficulty : String
  category : String
  score : ℚ
  feedback : String
  deriving Repr, DecidableEq

/-- The `InterviewResult` dataclass of report_generator.py.  Python
dicts preserve insertion order, so `performance_by_skill` is an ordered
association list. -/
structure InterviewResult where
  readiness_score : ℚ
  hiring_indicator : String
  performance_by_skill : List (String × ℚ)
  strengths : List String
  weaknesses : List String
  actionable_feedback : List String
  question_results : List QuestionResultEntry
  deriving Repr, DecidableEq

/-- `get_hiring_indicator` (report_generator.py lines 31–39). -/
def get_hiring_indicator (readiness_score : ℚ) : String :=
  if 80 ≤ readiness_score then "Strong Yes"
  else if 65 ≤ readiness_score then "Yes"
  else if 50 ≤ readiness_score then "Maybe"
  else "No"

/-- One iteration of the skill-grouping loop of `generate_report`
(report_generator.py lines 53–58): append the score to the area's list,
creating the key on first sight (Python dicts keep insertion order). -/
def addSkillScore (acc : List (String × List ℚ)) (area : String) (score : ℚ) :
    List (String × List ℚ) :=
  if acc.any (fun kv => kv.1 == area) then
    acc.map (fun kv => if kv.1 == area then (kv.1, kv.2 ++ [score]) else kv)
  else acc ++ [(area, [score])]

/-- The `skill_scores` dict of `generate_report` after the grouping
loop; an empty `skill_area` falls back to `"general"`. -/
def collect_skill_scores (evaluations : List AnswerEvaluation) :
    List (String × List ℚ) :=
  evaluations.foldl
    (fun acc ev =>
      addSkillScore acc (if ev.skill_area = "" then "general" else ev.skill_area)
        ev.overall_score)
    []

/-- The `performance_by_skill` dict of `generate_report`
(report_generator.py lines 59–61): per-area rounded mean score. -/
def performance_by_skill_of (evaluations : List AnswerEvaluation) :
    List (String × ℚ) :=
  (collect_skill_scores evaluations).map
    (fun kv => (kv.1, pyRound1 (kv.2.sum / (kv.2.length : ℚ))))

/-- The `strengths` list of `generate_report` (report_generator.py
lines 63–69): areas scoring at least 75, with a fixed fallback pair. -/
def strengths_of (performance : List (String × ℚ)) : List String :=
  let str := (performance.filter (fun kv => decide ((75 : ℚ) ≤ kv.2))).map (fun kv => kv.1)
  if str.isEmpty then ["Willingness to engage", "Response structure"] else str

/-- The `weaknesses` list of `generate_report` (report_generator.py
lines 71–77): areas scoring below 60, with a fixed fallback pair when
empty and the readiness score is below 70. -/
def weaknesses_of (performance : List (String × ℚ)) (readiness : ℚ) : List String :=
  let weak := (performance.filter (fun kv => decide (kv.2 < (60 : ℚ)))).map (fun kv => kv.1)
  if weak.isEmpty ∧ readiness < 70 then ["Depth of technical knowledge", "Time management"]
  else weak

/-- The `actionable` list of `generate_report` (report_generator.py
lines 79–86).  `pySetList` stands for Python's `list(set(...))`, whose
iteration order is interpreter-dependent; every theorem holds for any
such function. -/
def actionable_of (pySetList : List String → List String)
    (evaluations : List AnswerEvaluation) : List String :=
  let fbs := (pySetList ((evaluations.filter (fun ev => !(ev.feedback == ""))).map
      (fun ev => ev.feedback))).take 5
  if fbs.isEmpty then
    ["Practice structuring answers with clear examples.",
     "Focus on time management during responses.",
     "Brush up on fundamentals for the role."]
  else fbs

/-- The entry `generate_report` builds for one question/evaluation
pair. -/
def mkQuestionResult (q : Question) (e : AnswerEvaluation) : QuestionResultEntry :=
  { question := q.text
    difficulty := q.difficulty
    category := q.category
    score := e.overall_score
    feedback := e.feedback }

/-- `generate_report` (report_generator.py lines 42–107).  It performs
no length check on its inputs: `zip` silently pairs up to the shorter
list. -/
def generate_report (pySetList : List String → List String)
    (questions : List Question) (evaluations : List AnswerEvaluation)
    (early_terminated : Bool) : InterviewResult :=
  let readiness := compute_readiness_score evaluations early_terminated
  { readiness_score := readiness
    hiring_indicator := get_hiring_indicator readiness
    performance_by_skill := performance_by_skill_of evaluations
    strengths := strengths_of (performance_by_skill_of evaluations)
    weaknesses := weaknesses_of (performance_by_skill_of evaluations) readiness
    actionable_feedback := actionable_of pySetList evaluations
    question_results := (questions.zip evaluations).map
      (fun qe => mkQuestionResult qe.1 qe.2) }

/-- C5 counterexample: called with 1 question and 0 evaluations (a
length mismatch), `generate_report` does not fail — it successfully
returns this fully-determined report. -/
theorem generate_report_mismatch_succeeds :
    ([sampleQuestion] : List Question).length ≠ ([] : List AnswerEvaluation).length
    ∧ generate_report id [sampleQuestion] [] false
        = { readiness_score := 0
            hiring_indicator := "No"
            performance_by_skill := []
            strengths := ["Willingness to engage", "Response structure"]
            weaknesses := ["Depth of technical knowledge", "Time management"]
            actionable_feedback :=
              ["Practice structuring answers with clear examples.",
               "Focus on time management during responses.",
               "Brush up on fundamentals for the role."]
            question_results := [] } := by
  refine ⟨by decide, ?_⟩
  unfold generate_report compute_readiness_score get_hiring_indicator
    performance_by_skill_of collect_skill_scores strengths_of weaknesses_of actionable_of
  norm_num

/-- C5 (amended): `generate_report` does not fail on a length mismatch;
it returns a report whose `question_results` pair questions with
evaluations up to the shorter of the two lists. -/
theorem generate_report_mismatch_zips (pySetList : List String → List String)
    (questions : List Question) (evaluations : List AnswerEvaluation)
    (early_terminated : Bool)
    (hmis : questions.length ≠ evaluations.length) :
    (generate_report pySetList questions evaluations early_terminated).question_results.length
      = min questions.length evaluations.length := by
  simp [generate_report, List.length_zip]

/-- C5 witness for the amended claim, at the mismatched input of the
counterexample. -/
theorem generate_report_mismatch_zips_witness :
    (generate_report id [sampleQuestion] [] false).question_results.length
      = min ([sampleQuestion] : List Question).length ([] : List AnswerEvaluation).length :=
  generate_report_mismatch_zips id [sampleQuestion] [] false (by decide)

/-- C10: on mismatched lengths `generate_report` still returns a
report: `question_results` is the in-order zip cut at the shorter list,
while readiness score, per-skill performance, strengths, weaknesses and
actionable feedback are computed from the full evaluations list (hence
do not depend on the questions list at all). -/
theorem generate_report_mismatch_fields (pySetList : List String → List String)
    (questions : List Question) (evaluations : List AnswerEvaluation)
    (early_terminated : Bool)
    (hmis : questions.length ≠ evaluations.length) :
    (generate_report pySetList questions evaluations early_terminated).question_results
        = (questions.zip evaluations).map (fun qe => mkQuestionResult qe.1 qe.2)
    ∧ (generate_report pySetList questions evaluations early_terminated).question_results.length
        = min questions.length evaluations.length
    ∧ (generate_report pySetList questions evaluations early_terminated).readiness_score
        = compute_readiness_score evaluations early_terminated
    ∧ (generate_report pySetList questions evaluations early_terminated).performance_by_skill
        = performance_by_skill_of evaluations
    ∧ (generate_report pySetList questions evaluations early_terminated).strengths
        = strengths_of (performance_by_skill_of evaluations)
    ∧ (generate_report pySetList questions evaluations early_terminated).weaknesses
        = weaknesses_of (performance_by_skill_of evaluations)
            (compute_readiness_score evaluations early_terminated)
    ∧ (generate_report pySetList questions evaluations early_terminated).actionable_feedback
        = actionable_of pySetList evaluations
    ∧ ∀ questions2 : List Question,
        (generate_report pySetList questions2 evaluations early_terminated).readiness_score
            = (generate_report pySetList questions evaluations early_terminated).readiness_score
        ∧ (generate_report pySetList questions2 evaluations early_terminated).performance_by_skill
            = (generate_report pySetList questions evaluations early_terminated).performance_by_skill
        ∧ (generate_report pySetList questions2 evaluations early_terminated).strengths
            = (generate_report pySetList questions evaluations early_terminated).strengths
        ∧ (generate_report pySetList questions2 evaluations early_terminated).weaknesses
            = (generate_report pySetList questions evaluations early_terminated).weaknesses
        ∧ (generate_report pySetList questions2 evaluations early_terminated).actionable_feedback
            = (generate_report pySetList questions evaluations early_terminated).actionable_feedback :=
  ⟨rfl, by simp [generate_report, List.length_zip], rfl, rfl, rfl, rfl, rfl,
    fun _ => ⟨rfl, rfl, rfl, rfl, rfl⟩⟩

/-- C10 witness: two questions against one evaluation. -/
theorem generate_report_mismatch_fields_witness :
    (generate_report id [sampleQuestion, sampleQuestion] [sampleEvaluation] false).question_results
        = (([sampleQuestion, sampleQuestion] : List Question).zip [sampleEvaluation]).map
            (fun qe => mkQuestionResult qe.1 qe.2)
    ∧ (generate_report id [sampleQuestion, sampleQuestion] [sampleEvaluation] false).question_results.length
        = min ([sampleQuestion, sampleQuestion] : List Question).length
            ([sampleEvaluation] : List AnswerEvaluation).length
    ∧ (generate_report id [sampleQuestion, sampleQuestion] [sampleEvaluation] false).readiness_score
        = compute_readiness_score [sampleEvaluation] false
    ∧ (generate_report id [sampleQuestion, sampleQuestion] [sampleEvaluation] false).performance_by_skill
        = performance_by_skill_of [sampleEvaluation]
    ∧ (generate_report id [sampleQuestion, sampleQuestion] [sampleEvaluation] false).strengths
        = strengths_of (performance_by_skill_of [sampleEvaluation])
    ∧ (generate_report id [sampleQuestion, sampleQuestion] [sampleEvaluation] false).weaknesses
        = weaknesses_of (performance_by_skill_of [sampleEvaluation])
            (compute_readiness_score [sampleEvaluation] false)
    ∧ (generate_report id [sampleQuestion, sampleQuestion] [sampleEvaluation] false).actionable_feedback
        = actionable_of id [sampleEvaluation]
    ∧ ∀ questions2 : List Question,
        (generate_report id questions2 [sampleEvaluation] false).readiness_score
            = (generate_report id [sampleQuestion, sampleQuestion] [sampleEvaluation] false).readiness_score
        ∧ (generate_report id questions2 [sampleEvaluation] false).performance_by_skill
            = (generate_report id [sampleQuestion, sampleQuestion] [sampleEvaluation] false).performance_by_skill
        ∧ (generate_report id questions2 [sampleEvaluation] false).strengths
            = (generate_report id [sampleQuestion, sampleQuestion] [sampleEvaluation] false).strengths
        ∧ (generate_report id questions2 [sampleEvaluation] false).weaknesses
            = (generate_report id [sampleQuestion, sampleQuestion] [sampleEvaluation] false).weaknesses
        ∧ (generate_report id questions2 [sampleEvaluation] false).actionable_feedback
            = (generate_report id [sampleQuestion, sampleQuestion] [sampleEvaluation] false).actionable_feedback :=
  generate_report_mismatch_fields id [sampleQuestion, sampleQuestion] [sampleEvaluation] false
    (by decide)

/-! ## jd_parser.py / interviewer.py: fallback question generation -/

/-- The parsed job-description dict produced by
`parse_job_description` (jd_parser.py lines 67–105). -/
structure JDData where
  role : String
  required_skills : List String
  nice_to_have : List String
  experience_level : String
  key_responsibilities : List String
  raw_excerpt : String
  deriving Repr, DecidableEq

/-- The parsed resume dict; the fallback question generator reads only
its `skills` list. -/
structure ResumeData where
  skills : List String
  deriving Repr, DecidableEq

/-- The dynamic-context dict returned by `extract_dynamic_context`
(jd_parser.py lines 7–64). -/
structure DynContext where
  role : String
  skills : List String
  skill : String
  skill2 : String
  verbs : List String
  verb : String
  domains : List String
  domain : String
  key_phrases : List String
  phrase : String
  deriving Repr, DecidableEq

/-- Python's substring test `needle in hay` on strings. -/
def strContainsSub (hay needle : String) : Bool :=
  decide (needle.data <:+: hay.data)

/-- `_build_dynamic_questions` (interviewer.py lines 108–199): the
template table, keyed by category (default `technical`) and difficulty
(default `medium`).  The `q_index` argument is unused in the source as
well. -/
def build_dynamic_questions (ctx : DynContext) (category : String)
    (diff : String) (q_index : ℕ) : List String :=
  let s := ctx.skill
  let s2 := ctx.skill2
  let v := ctx.verb
  let d := ctx.domain
  let phrase := ctx.phrase
  let role := ctx.role
  let technical :=
    if diff = "easy" then
      ["What is your experience with " ++ s ++ "? How have you used it in projects?",
       "Explain the key concepts of " ++ s ++ " relevant to " ++ role ++ ".",
       "How would you get started with " ++ s ++ " for a new project?",
       "What are the main features of " ++ s ++ " that matter for " ++ d ++ " systems?",
       "Describe a simple use case where you applied " ++ s ++ "."]
    else if diff = "hard" then
      ["Design a " ++ d ++ " system using " ++ s ++ ". What architecture would you choose and why?",
       "How would you handle failure scenarios when " ++ v ++ " " ++ s ++ " at scale?",
       "Discuss the limitations of " ++ s ++ " and how you would work around them.",
       "Your " ++ s ++ "-based system is degrading under load. How do you diagnose and fix it?",
       "Compare " ++ s ++ " and " ++ s2 ++ " for " ++ phrase ++ ". When would you use each?"]
    else
      ["How would you " ++ v ++ " " ++ s ++ " in a " ++ d ++ " environment?",
       "Describe your approach to optimizing " ++ s ++ " for scale.",
       "What challenges have you faced with " ++ s ++ " and how did you solve them?",
       "How do you integrate " ++ s ++ " with " ++ s2 ++ " in practice?",
       "Walk through how you would design a solution using " ++ s ++ " for " ++ phrase ++ ".",
       "What are the trade-offs when choosing " ++ s ++ " over alternatives?"]
  let conceptual :=
    if diff = "easy" then
      ["Why is " ++ s ++ " important for " ++ role ++ "?",
       "What does good " ++ phrase ++ " look like in your experience?",
       "How do you stay updated with " ++ s ++ " and " ++ s2 ++ "?"]
    else if diff = "hard" then
      ["Discuss trade-offs in " ++ phrase ++ " when scaling with " ++ s ++ ".",
       "How would you approach technical debt in a " ++ s ++ "-based codebase?",
       "What would you change about how " ++ s ++ " is typically used in the industry?"]
    else
      ["Explain the relationship between " ++ s ++ " and " ++ d ++ " systems.",
       "What principles guide your approach to " ++ phrase ++ "?",
       "How would you explain " ++ s ++ " to a non-technical stakeholder?"]
  let behavioral :=
    if diff = "easy" then
      ["Tell me about a project where you used " ++ s ++ ". What was your contribution?",
       "How do you handle disagreements about " ++ phrase ++ "?",
       "Describe a time you learned " ++ s ++ " quickly."]
    else if diff = "hard" then
      ["Describe a failure with " ++ s ++ " and what you learned.",
       "Tell me about a technical decision you made with incomplete information regarding " ++ phrase ++ ".",
       "How have you mentored others on " ++ s ++ "?"]
    else
      ["Describe a challenging situation with " ++ phrase ++ ". How did you resolve it?",
       "Tell me about a time you had to " ++ v ++ " under pressure.",
       "How do you prioritize when working on " ++ s ++ " and " ++ s2 ++ " simultaneously?"]
  let scenario :=
    if diff = "easy" then
      ["A teammate asks for help with " ++ s ++ ". How do you approach it?",
       "You need to onboard someone to " ++ phrase ++ ". What\x27s your plan?",
       "A bug appears in a " ++ s ++ " component. Walk through your debugging steps."]
    else if diff = "hard" then
      ["Design a rollout strategy for migrating from " ++ s ++ " to " ++ s2 ++ " with zero downtime.",
       "You have to choose between speed and quality for " ++ phrase ++ ". How do you decide?",
       "A security vulnerability is found in your " ++ s ++ " stack. How do you handle it?"]
    else
      ["Your " ++ s ++ " deployment fails at 2 AM. What do you do?",
       "A stakeholder wants to change scope for " ++ phrase ++ ". How do you respond?",
       "The " ++ d ++ " system is slow. How do you investigate and fix it?",
       "You discover a critical issue with " ++ s ++ " in production. What\x27s your process?"]
  if category = "conceptual" then conceptual
  else if category = "behavioral" then behavioral
  else if category = "scenario" then scenario
  else technical

/-- `_generate_question_fallback` (interviewer.py lines 202–227).
`pyHash` is the process string-hash (Python's seeded `hash`);
`extract_dynamic_context` is jd_parser.py's pure context extractor,
taken as a parameter because its regex internals are irrelevant to the
claims about this function.  The candidate index is
`(hash(role + str(len(previous)) + category) % n + n) % n` exactly as in
the source (Python `%` on a positive modulus is `Int.emod`). -/
def generate_question_fallback (pyHash : String → ℤ)
    (extract_dynamic_context : String → JDData → DynContext)
    (resume_data : ResumeData) (jd_data : JDData)
    (previous_questions : List Question) (diff category : String) : Question :=
  let jd_text := jd_data.raw_excerpt
  let ctx0 := extract_dynamic_context jd_text jd_data
  let ctx :=
    if ctx0.skills.isEmpty then
      let skills :=
        if resume_data.skills.isEmpty then ["technical skills"] else resume_data.skills
      { ctx0 with
        skills := skills
        skill := skills.headD "the role"
        skill2 := skills.getD 1 (skills.headD "the role") }
    else ctx0
  let q_list := build_dynamic_questions ctx category diff previous_questions.length
  let prev_texts := (previous_questions.drop (previous_questions.length - 3)).map
    (fun q => (q.text.toLower).take 40)
  let candidates := q_list.filter
    (fun q => !(prev_texts.any (fun pt => strContainsSub (q.toLower.take 50) pt)))
  let candidates := if candidates.isEmpty then q_list else candidates
  let idx := ((pyHash (ctx.role ++ toString previous_questions.length ++ category)).emod
      (candidates.length : ℤ) + (candidates.length : ℤ)).emod (candidates.length : ℤ)
  { text := candidates.getD idx.toNat ""
    difficulty := diff
    category := category
    skill_area := ctx.skill }

/-- C7: the fallback question generator is deterministic — for a fixed
process hash function and context extractor, two calls with identical
resume data, job-description data, previous-question list, difficulty
and category produce the identical question text. -/
theorem fallback_question_deterministic (pyHash : String → ℤ)
    (extract_dynamic_context : String → JDData → DynContext)
    (rd₁ rd₂ : ResumeData) (jd₁ jd₂ : JDData)
    (prev₁ prev₂ : List Question) (diff₁ diff₂ cat₁ cat₂ : String)
    (hrd : rd₁ = rd₂) (hjd : jd₁ = jd₂) (hprev : prev₁ = prev₂)
    (hdiff : diff₁ = diff₂) (hcat : cat₁ = cat₂) :
    (generate_question_fallback pyHash extract_dynamic_context rd₁ jd₁ prev₁ diff₁ cat₁).text
      = (generate_question_fallback pyHash extract_dynamic_context rd₂ jd₂ prev₂ diff₂ cat₂).text := by
  subst hrd
  subst hjd
  subst hprev
  subst hdiff
  subst hcat
  rfl

/-- A sample parsed job description. -/
def sampleJD : JDData :=
  { role := "Software Engineer"
    required_skills := ["Python"]
    nice_to_have := []
    experience_level := "mid"
    key_responsibilities := []
    raw_excerpt := "Python developer role" }

/-- A sample parsed resume. -/
def sampleResume : ResumeData := { skills := ["Python", "SQL"] }

/-- A sample dynamic context. -/
def sampleContext : DynContext :=
  { role := "Software Engineer"
    skills := ["Python"]
    skill := "Python"
    skill2 := "Python"
    verbs := ["build"]
    verb := "build"
    domains := ["production"]
    domain := "production"
    key_phrases := []
    phrase := "your main responsibilities" }

/-- C7 witness: two identical concrete calls under the zero hash. -/
theorem fallback_question_deterministic_witness :
    (generate_question_fallback (fun _ => 0) (fun _ _ => sampleContext)
        sampleResume sampleJD [] "easy" "technical").text
      = (generate_question_fallback (fun _ => 0) (fun _ _ => sampleContext)
          sampleResume sampleJD [] "easy" "technical").text :=
  fallback_question_deterministic (fun _ => 0) (fun _ _ => sampleContext)
    sampleResume sampleResume sampleJD sampleJD [] [] "easy" "easy" "technical" "technical"
    rfl rfl rfl rfl rfl

/-! ## app.py: the interview session state machine -/

/-- Python `str.strip()` with no argument: drop leading and trailing
whitespace. -/
def pyStrip (s : String) : String :=
  ((s.data.dropWhile Char.isWhitespace).reverse.dropWhile Char.isWhitespace).reverse.asString

/-- `generate_question` (interviewer.py lines 39–66) on the fallback
path (no API key): the category cycles with the number of questions
already asked. -/
def generate_question (pyHash : String → ℤ)
    (extract_dynamic_context : String → JDData → DynContext)
    (resume_data : ResumeData) (jd_data : JDData)
    (previous_questions : List Question) (current_difficulty : String) : Question :=
  let categories := ["technical", "conceptual", "behavioral", "scenario"]
  let category := categories.getD (previous_questions.length % 4) "technical"
  generate_question_fallback pyHash extract_dynamic_context resume_data jd_data
    previous_questions current_difficulty category

/-- The all-zero evaluation recorded for a skipped question (app.py
lines 402–411). -/
def skipped_evaluation (current_q : Question) : AnswerEvaluation :=
  { accuracy := 0, clarity := 0, depth := 0, relevance := 0
    time_efficiency := 0, overall_score := 0
    feedback := "Question skipped by candidate."
    skill_area := current_q.skill_area }

/-- The Streamlit session state of app.py (`init_session_state`,
lines 223–242); the raw texts, parsed data and timer live in `Env` /
the operation arguments. -/
structure SessionState where
  stage : String
  questions : List Question
  evaluations : List AnswerEvaluation
  current_question : Option Question
  current_difficulty : String
  interview_complete : Bool
  early_terminated : Bool
  report : Option InterviewResult

/-- The initial session state (app.py lines 225–239). -/
def init_session_state : SessionState :=
  { stage := "upload"
    questions := []
    evaluations := []
    current_question := none
    current_difficulty := "medium"
    interview_complete := false
    early_terminated := false
    report := none }

/-- The ambient data of a session: the process hash, the context
extractor, the `list(set(...))` order, and the parsed resume and job
description stored in the session on start. -/
structure Env where
  pyHash : String → ℤ
  extract_dynamic_context : String → JDData → DynContext
  pySetList : List String → List String
  resume_data : ResumeData
  jd_data : JDData

/-- The user-triggered operations of the interview UI. -/
inductive Op where
  | startInterview
  | submitAnswer (answer : String) (time_taken : ℚ)
  | skipQuestion
  | finishInterview

/-- The Submit Answer handler (app.py lines 359–397), for the current
question `q`: a blank answer is rejected with a warning and no state
change; otherwise question and evaluation are appended together,
followed by the early-termination check, the difficulty update, and
either the final report or the next question. -/
def submitStep (env : Env) (s : SessionState) (q : Question)
    (answer : String) (time_taken : ℚ) : SessionState × Option String :=
  if pyStrip answer = "" then
    (s, some "Please provide an answer before submitting.")
  else
    let evaluation := evaluate_answer_fallback q answer time_taken
    let evaluations' := s.evaluations ++ [evaluation]
    let questions' := s.questions ++ [q]
    let scores := evaluations'.map (fun e => e.overall_score)
    if should_terminate_early questions'.length scores then
      ({ s with
          questions := questions'
          evaluations := evaluations'
          early_terminated := true
          interview_complete := true
          current_question := none
          stage := "results"
          report := some (generate_report env.pySetList questions' evaluations' true) }, none)
    else
      let next_diff := get_next_difficulty s.current_difficulty evaluation scores
      if MAX_QUESTIONS ≤ questions'.length then
        ({ s with
            questions := questions'
            evaluations := evaluations'
            current_difficulty := next_diff
            interview_complete := true
            current_question := none
            stage := "results"
            report := some (generate_report env.pySetList questions' evaluations' false) }, none)
      else
        ({ s with
            questions := questions'
            evaluations := evaluations'
            current_difficulty := next_diff
            current_question := some (generate_question env.pyHash
              env.extract_dynamic_context env.resume_data env.jd_data
              questions' next_diff) }, none)

/-- The Skip Question handler (app.py lines 400–445): the zero
evaluation and the question are appended together; the difficulty is
updated only when the interview continues. -/
def skipStep (env : Env) (s : SessionState) (q : Question) :
    SessionState × Option String :=
  let skipped := skipped_evaluation q
  let evaluations' := s.evaluations ++ [skipped]
  let questions' := s.questions ++ [q]
  let scores := evaluations'.map (fun e => e.overall_score)
  if should_terminate_early questions'.length scores then
    ({ s with
        questions := questions'
        evaluations := evaluations'
        early_terminated := true
        interview_complete := true
        current_question := none
        stage := "results"
        report := some (generate_report env.pySetList questions' evaluations' true) }, none)
  else if MAX_QUESTIONS ≤ questions'.length then
    ({ s with
        questions := questions'
        evaluations := evaluations'
        interview_complete := true
        current_question := none
        stage := "results"
        report := some (generate_report env.pySetList questions' evaluations' false) }, none)
  else
    let next_diff := get_next_difficulty s.current_difficulty skipped scores
    ({ s with
        questions := questions'
        evaluations := evaluations'
        current_difficulty := next_diff
        current_question := some (generate_question env.pyHash
          env.extract_dynamic_context env.resume_data env.jd_data
          questions' next_diff) }, none)

/-- The Finish Interview handler (app.py lines 447–457). -/
def finishStep (env : Env) (s : SessionState) : SessionState × Option String :=
  if s.questions.length < 2 then
    (s, some "Complete at least 2 questions for a meaningful report.")
  else
    ({ s with
        interview_complete := true
        current_question := none
        stage := "results"
        report := some (generate_report env.pySetList s.questions s.evaluations false) }, none)

/-- One UI operation applied to the session.  `main` (app.py
lines 527–535) dispatches on the stage, and the interview buttons are
rendered only while a current question is displayed, so operations
fired outside their stage leave the state unchanged. -/
def step (env : Env) (s : SessionState) : Op → SessionState × Option String
  | Op.startInterview =>
      if s.stage = "upload" then
        ({ s with
            stage := "interviewing"
            current_question := some (generate_question env.pyHash
              env.extract_dynamic_context env.resume_data env.jd_data [] "medium") }, none)
      else (s, none)
  | Op.submitAnswer answer time_taken =>
      if s.stage = "interviewing" then
        match s.current_question with
        | some q => submitStep env s q answer time_taken
        | none => (s, none)
      else (s, none)
  | Op.skipQuestion =>
      if s.stage = "interviewing" then
        match s.current_question with
        | some q => skipStep env s q
        | none => (s, none)
      else (s, none)
  | Op.finishInterview =>
      if s.stage = "interviewing" then
        match s.current_question with
        | some _ => finishStep env s
        | none => (s, none)
      else (s, none)

/-- Run a sequence of UI operations from the initial session. -/
def runOps (env : Env) (ops : List Op) : SessionState :=
  ops.foldl (fun s op => (step env s op).1) init_session_state

/-- Every step preserves equality of the questions and evaluations
lengths: each operation appends one element to both lists or to
neither. -/
theorem step_preserves_lengths (env : Env) (s : SessionState) (op : Op)
    (h : s.questions.length = s.evaluations.length) :
    (step env s op).1.questions.length = (step env s op).1.evaluations.length := by
  cases op with
  | startInterview =>
      simp only [step]
      split_ifs <;> simpa using h
  | submitAnswer answer time_taken =>
      simp only [step]
      split_ifs with hstage
      · cases hq : s.current_question with
        | none => simpa using h
        | some q =>
            simp only [submitStep]
            split_ifs <;> simp [List.length_append, h]
      · simpa using h
  | skipQuestion =>
      simp only [step]
      split_ifs with hstage
      · cases hq : s.current_question with
        | none => simpa using h
        | some q =>
            simp only [skipStep]
            split_ifs <;> simp [List.length_append, h]
      · simpa using h
  | finishInterview =>
      simp only [step]
      split_ifs with hstage
      · cases hq : s.current_question with
        | none => simpa using h
        | some q =>
            simp only [finishStep]
            split_ifs <;> simpa using h
      · simpa using h

/-- C6: from the initial session (both lists empty), after any sequence
of operations the questions and evaluations lists have equal length;
moreover a Submit with a non-blank answer appends exactly the current
question and exactly one evaluation together, and a Skip appends
exactly the current question and exactly its zero evaluation
together. -/
theorem session_lists_in_lockstep (env : Env) :
    (∀ ops : List Op,
        (runOps env ops).questions.length = (runOps env ops).evaluations.length)
    ∧ (∀ (s : SessionState) (q : Question) (answer : String) (t : ℚ),
        s.stage = "interviewing" → s.current_question = some q →
        pyStrip answer ≠ "" →
        (step env s (Op.submitAnswer answer t)).1.questions = s.questions ++ [q]
        ∧ (step env s (Op.submitAnswer answer t)).1.evaluations
            = s.evaluations ++ [evaluate_answer_fallback q answer t])
    ∧ (∀ (s : SessionState) (q : Question),
        s.stage = "interviewing" → s.current_question = some q →
        (step env s Op.skipQuestion).1.questions = s.questions ++ [q]
        ∧ (step env s Op.skipQuestion).1.evaluations
            = s.evaluations ++ [skipped_evaluation q]) := by
  refine ⟨?_, ?_, ?_⟩
  · have hrun : ∀ (ops : List Op) (s : SessionState),
        s.questions.length = s.evaluations.length →
        (ops.foldl (fun s op => (step env s op).1) s).questions.length
          = (ops.foldl (fun s op => (step env s op).1) s).evaluations.length := by
      intro ops
      induction ops with
      | nil => intro s h; exact h
      | cons op rest ih =>
          intro s h
          exact ih _ (step_preserves_lengths env s op h)
    exact fun ops => hrun ops init_session_state rfl
  · intro s q answer t hstage hq hans
    simp only [step, hstage, if_true, hq, submitStep, hans, if_false]
    split_ifs <;> exact ⟨rfl, rfl⟩
  · intro s q hstage hq
    simp only [step, hstage, if_true, hq, skipStep]
    split_ifs <;> exact ⟨rfl, rfl⟩

/-- A session in the middle of an interview, used as a concrete
instantiation point. -/
def interviewingState : SessionState :=
  { stage := "interviewing"
    questions := []
    evaluations := []
    current_question := some sampleQuestion
    current_difficulty := "medium"
    interview_complete := false
    early_terminated := false
    report := none }

/-- A concrete environment. -/
def sampleEnv : Env :=
  { pyHash := fun _ => 0
    extract_dynamic_context := fun _ _ => sampleContext
    pySetList := id
    resume_data := sampleResume
    jd_data := sampleJD }

/-- C6 witness: a concrete run, a concrete non-blank Submit and a
concrete Skip. -/
theorem session_lists_in_lockstep_witness :
    (runOps sampleEnv [Op.startInterview, Op.submitAnswer "I write tests first" 30]).questions.length
        = (runOps sampleEnv [Op.startInterview, Op.submitAnswer "I write tests first" 30]).evaluations.length
    ∧ ((step sampleEnv interviewingState (Op.submitAnswer "Good answer" 10)).1.questions
          = interviewingState.questions ++ [sampleQuestion]
        ∧ (step sampleEnv interviewingState (Op.submitAnswer "Good answer" 10)).1.evaluations
            = interviewingState.evaluations ++ [evaluate_answer_fallback sampleQuestion "Good answer" 10])
    ∧ ((step sampleEnv interviewingState Op.skipQuestion).1.questions
          = interviewingState.questions ++ [sampleQuestion]
        ∧ (step sampleEnv interviewingState Op.skipQuestion).1.evaluations
            = interviewingState.evaluations ++ [skipped_evaluation sampleQuestion]) :=
  ⟨(session_lists_in_lockstep sampleEnv).1 [Op.startInterview, Op.submitAnswer "I write tests first" 30],
   (session_lists_in_lockstep sampleEnv).2.1 interviewingState sampleQuestion "Good answer" 10
     rfl rfl (by decide),
   (session_lists_in_lockstep sampleEnv).2.2 interviewingState sampleQuestion rfl rfl⟩

/-- C9: a Submit with a blank (empty or whitespace-only) answer while a
question is displayed changes nothing — the pair of lists, the current
question, the difficulty and every other field stay as they were — and
surfaces the validation warning. -/
theorem blank_submit_is_noop (env : Env) (s : SessionState) (q : Question)
    (answer : String) (t : ℚ)
    (hstage : s.stage = "interviewing") (hq : s.current_question = some q)
    (hblank : pyStrip answer = "") :
    step env s (Op.submitAnswer answer t)
      = (s, some "Please provide an answer before submitting.") := by
  simp only [step, hstage, if_true, hq, submitStep, hblank, if_pos]

/-- C9 witness: a whitespace-only answer in a live session. -/
theorem blank_submit_is_noop_witness :
    step sampleEnv interviewingState (Op.submitAnswer "   " 5)
      = (interviewingState, some "Please provide an answer before submitting.") :=
  blank_submit_is_noop sampleEnv interviewingState sampleQuestion "   " 5 rfl rfl (by decide)

end MockInterview
